import Mathlib

/-
Verification of the Spectral Lie voice-detection pipeline
(part3_api/app: fast_gate.py, orchestrator.py, routes.py, schemas.py).

Shallow-embedding conventions:
* Python floats are modelled as exact rationals (`Rat`); every threshold in
  the source is an exact decimal, so comparison semantics coincide.
* `bytes` values are modelled as `List Nat` (each entry a byte, 0..255).
* Calls to external collaborators and effectful stages (the fast gate run
  over raw audio, part1 feature extraction, part2 inference) are modelled
  by passing their outcome as an `Except`/`Option` argument: `.error e`
  stands for a raised Python exception with message `e`, and the
  orchestrator's try/except blocks become matches on that outcome.
* Python `round(x, 3)` is modelled by `pyRound3`; every value this pipeline
  rounds is an exact multiple of 1/1000, where round-half-even and
  round-half-up coincide, so Mathlib's `round` is used.
* Python f-string float formatting ("{:.3f}" etc.) is abstracted by
  `toString` on `Rat`; no verified property depends on rendered digits.
-/

/-- Model of Python `round(x, 3)`. -/
def pyRound3 (q : Rat) : Rat := (round (q * 1000) : Int) / 1000

/-- The feature dict computed by `compute_features_fast` (fast_gate.py):
duration, RMS energy, chunked RMS variance, zero-crossing rate, and the
fraction of samples below the silence threshold (`silence_ratio` in the
source). -/
structure FastFeatures where
  duration : Rat
  rms : Rat
  rms_variance : Rat
  zcr : Rat
  silence_fraction : Rat
deriving DecidableEq

/-- The dict returned by `fast_gate.check` when conclusive. -/
structure GateResult where
  is_human : Bool
  confidence : Rat
  features : FastFeatures
deriving DecidableEq

/-- The result dicts produced by `detect_voice` / `_create_fallback_response`
(orchestrator.py): every dict literal there has exactly these five keys. -/
structure OrchResult where
  classification : String
  confidence : Rat
  explanation : String
  model_version : String
  decision_threshold : Rat
deriving DecidableEq

/-- The response model returned to the caller (schemas.py `DetectResponse`):
pydantic serializes exactly the declared fields. -/
structure DetectResponse where
  classification : String
  confidence : Rat
  explanation : String
  model_version : String
  request_id : String
deriving DecidableEq

/-- A JSON field value, used to state which named fields a serialized
record carries. -/
inductive FieldVal where
  | str : String → FieldVal
  | num : Rat → FieldVal
deriving DecidableEq

/-- The serialized field list of a `DetectResponse` (schemas.py lines 26-31:
pydantic emits the declared fields, in declaration order). -/
def DetectResponse.toFields (r : DetectResponse) : List (String × FieldVal) :=
  [("classification", .str r.classification),
   ("confidence", .num r.confidence),
   ("explanation", .str r.explanation),
   ("model_version", .str r.model_version),
   ("request_id", .str r.request_id)]

/-- The serialized field list of an orchestrator result dict. -/
def OrchResult.toFields (r : OrchResult) : List (String × FieldVal) :=
  [("classification", .str r.classification),
   ("confidence", .num r.confidence),
   ("explanation", .str r.explanation),
   ("model_version", .str r.model_version),
   ("decision_threshold", .num r.decision_threshold)]

/- ===================== Waveform decoder (fast_gate.py) ===================== -/

/-- Little-endian 16-bit read at offset `i` (struct.unpack of a 44-byte-checked
buffer; `getD` never hits its default at the offsets used). -/
def readLE16 (b : List Nat) (i : Nat) : Nat :=
  b.getD i 0 + 256 * b.getD (i + 1) 0

/-- Little-endian 32-bit read at offset `i`. -/
def readLE32 (b : List Nat) (i : Nat) : Nat :=
  b.getD i 0 + 256 * b.getD (i + 1) 0 + 65536 * b.getD (i + 2) 0 +
    16777216 * b.getD (i + 3) 0

/-- Signed 16-bit value from two little-endian bytes (numpy int16 view). -/
def int16OfBytes (lo hi : Nat) : Int :=
  let u := lo + 256 * hi
  if u < 32768 then (u : Int) else (u : Int) - 65536

/-- `np.frombuffer(dtype=int16)` then normalization by 32768. An odd-length
buffer makes numpy raise, which `_decode_wav` catches and turns into `None`,
hence the `none` on a trailing singleton. -/
def pcm16Samples : List Nat → Option (List Rat)
  | [] => some []
  | [_] => none
  | lo :: hi :: rest => (pcm16Samples rest).map (fun s => ((int16OfBytes lo hi : Rat) / 32768) :: s)

/-- `np.frombuffer(dtype=uint8)` then normalization via `(v - 128) / 128`. -/
def pcm8Samples (data : List Nat) : List Rat :=
  data.map (fun (v : Nat) => ((v : Rat) - 128) / 128)

/-- Python slice `samples[::2]` (left channel of an interleaved stereo buffer). -/
def everyOther : List Rat → List Rat
  | [] => []
  | [x] => [x]
  | x :: _ :: rest => x :: everyOther rest

/-- `_decode_wav` (fast_gate.py lines 44-79): header-length guard, header
field extraction, 16-bit or 8-bit PCM decode, stereo downmix by taking the
left channel. `none` models both the explicit `return None` paths and the
caught-exception path. -/
def _decode_wav (b : List Nat) : Option (List Rat × Nat) :=
  if b.length < 44 then none
  else
    let sample_rate := readLE32 b 24
    let bits_per_sample := readLE16 b 34
    let num_channels := readLE16 b 22
    let data := b.drop 44
    let samplesOpt : Option (List Rat) :=
      if bits_per_sample = 16 then pcm16Samples data
      else if bits_per_sample = 8 then some (pcm8Samples data)
      else none
    samplesOpt.map (fun samples =>
      (if num_channels = 2 then everyOther samples else samples, sample_rate))

/- ===================== Fast gate rules (fast_gate.py) ===================== -/

def DURATION_MAX : Rat := 5
def SILENCE_RATIO_MAX : Rat := 6/10
def ZCR_MIN : Rat := 2/100
def RMS_VARIANCE_MIN : Rat := 1/1000

def AI_RMS_VARIANCE_MAX : Rat := 5/10000
def AI_ZCR_MAX : Rat := 15/1000
def AI_SILENCE_RATIO_MAX : Rat := 15/100

/-- `is_likely_human` condition of `check` (fast_gate.py lines 149-153). -/
def isLikelyHuman (f : FastFeatures) : Prop :=
  RMS_VARIANCE_MIN < f.rms_variance ∧ ZCR_MIN < f.zcr ∧
    f.silence_fraction < SILENCE_RATIO_MAX

instance (f : FastFeatures) : Decidable (isLikelyHuman f) := by
  unfold isLikelyHuman
  infer_instance

/-- `is_likely_ai` condition of `check` (fast_gate.py lines 183-187). -/
def isLikelyAI (f : FastFeatures) : Prop :=
  f.rms_variance < AI_RMS_VARIANCE_MAX ∧ f.zcr < AI_ZCR_MAX ∧
    f.silence_fraction < AI_SILENCE_RATIO_MAX

instance (f : FastFeatures) : Decidable (isLikelyAI f) := by
  unfold isLikelyAI
  infer_instance

/-- Confidence build-up of the human branch of `check`: base 0.75, +0.05 per
stricter sub-condition, capped by `min(0.90, ...)`. -/
def humanConfidence (f : FastFeatures) : Rat :=
  let c1 : Rat := 3/4
  let c2 := if 5/100 < f.zcr then c1 + 5/100 else c1
  let c3 := if 5/1000 < f.rms_variance then c2 + 5/100 else c2
  let c4 := if f.silence_fraction < 3/10 then c3 + 5/100 else c3
  min (9/10) c4

/-- Confidence build-up of the AI branch of `check`. -/
def aiConfidence (f : FastFeatures) : Rat :=
  let c1 : Rat := 3/4
  let c2 := if f.rms_variance < 2/10000 then c1 + 5/100 else c1
  let c3 := if f.zcr < 1/100 then c2 + 5/100 else c2
  let c4 := if f.silence_fraction < 1/10 then c3 + 5/100 else c3
  min (9/10) c4

/-- Steps 3-5 of `fast_gate.check` (fast_gate.py lines 142-210): duration
ceiling, then the human rule, then the AI rule; `none` is "inconclusive".
(Steps 1-2, decode and feature computation, happen upstream; the orchestrator
consumes the overall outcome of `check` as a stage outcome.) -/
def fastGateDecision (f : FastFeatures) : Option GateResult :=
  if DURATION_MAX < f.duration then none
  else if isLikelyHuman f then some ⟨true, humanConfidence f, f⟩
  else if isLikelyAI f then some ⟨false, aiConfidence f, f⟩
  else none

/- ================= Acoustic bundle and post-extraction gate ================= -/

/-- The `acoustic_features` dict of a part1 feature object, restricted to the
keys the orchestrator reads; `none` models an absent key. -/
structure AcousticBundle where
  jitter_local : Option Rat
  jitter : Option Rat
  shimmer_local : Option Rat
  shimmer : Option Rat
  hnr : Option Rat
deriving DecidableEq

def emptyBundle : AcousticBundle := ⟨none, none, none, none, none⟩

/-- `acoustic.get(primary, acoustic.get(alias, default))`. -/
def bundleGet (primary aliasKey : Option Rat) (dflt : Rat) : Rat :=
  primary.getD (aliasKey.getD dflt)

/-- Post-extraction-gate resolution of jitter (orchestrator.py line 106,
default 0). -/
def pgJitter (b : AcousticBundle) : Rat := bundleGet b.jitter_local b.jitter 0

/-- Post-extraction-gate resolution of shimmer (line 107, default 0). -/
def pgShimmer (b : AcousticBundle) : Rat := bundleGet b.shimmer_local b.shimmer 0

/-- Post-extraction-gate resolution of HNR (line 108, default 20). -/
def pgHnr (b : AcousticBundle) : Rat := b.hnr.getD 20

/-- AI score of the post-extraction gate (orchestrator.py lines 111-117). -/
def postAiScore (jitter shimmer hnr : Rat) : Nat :=
  (if jitter < 5/1000 then 1 else 0) + (if shimmer < 2/100 then 1 else 0) +
    (if 28 < hnr then 1 else 0)

/-- Human score of the post-extraction gate (orchestrator.py lines 120-126). -/
def postHumanScore (jitter shimmer hnr : Rat) : Nat :=
  (if 1/100 < jitter then 1 else 0) + (if 3/100 < shimmer then 1 else 0) +
    (if hnr < 25 then 1 else 0)

def postGateAiExplanation (jitter shimmer hnr : Rat) : String :=
  "AI acoustic signature (jitter=" ++ toString jitter ++ ", shimmer=" ++
    toString shimmer ++ ", HNR=" ++ toString hnr ++ ")."

def postGateHumanExplanation (jitter shimmer hnr : Rat) : String :=
  "Human acoustic signature (jitter=" ++ toString jitter ++ ", shimmer=" ++
    toString shimmer ++ ", HNR=" ++ toString hnr ++ ")."

/-- The post-extraction gate (orchestrator.py lines 110-150): AI fires on
`ai_score >= 2 and human_score == 0`, else Human fires on `human_score >= 2`,
else inconclusive. -/
def postExtractionGate (jitter shimmer hnr : Rat) : Option OrchResult :=
  if 2 ≤ postAiScore jitter shimmer hnr ∧ postHumanScore jitter shimmer hnr = 0 then
    some { classification := "AI-Generated",
           confidence := min (9/10) (7/10 + (postAiScore jitter shimmer hnr : Rat) * (1/10)),
           explanation := postGateAiExplanation jitter shimmer hnr,
           model_version := "v1.2-acoustic-gate",
           decision_threshold := 1/2 }
  else if 2 ≤ postHumanScore jitter shimmer hnr then
    some { classification := "Human",
           confidence := min (9/10) (7/10 + (postHumanScore jitter shimmer hnr : Rat) * (1/10)),
           explanation := postGateHumanExplanation jitter shimmer hnr,
           model_version := "v1.2-acoustic-gate",
           decision_threshold := 1/2 }
  else none

/- ===================== Fallback synthesizer (orchestrator.py) ===================== -/

/-- Fallback resolution of jitter (orchestrator.py line 172, default 0.02);
`features = none` models `features` being `None` (or lacking
`acoustic_features`), in which case the fixed defaults are used. -/
def fbJitter (features : Option AcousticBundle) : Rat :=
  match features with
  | none => 2/100
  | some b => bundleGet b.jitter_local b.jitter (2/100)

/-- Fallback resolution of shimmer (line 173, default 0.04). -/
def fbShimmer (features : Option AcousticBundle) : Rat :=
  match features with
  | none => 4/100
  | some b => bundleGet b.shimmer_local b.shimmer (4/100)

/-- Fallback resolution of HNR (line 174, default 20.0). -/
def fbHnr (features : Option AcousticBundle) : Rat :=
  match features with
  | none => 20
  | some b => b.hnr.getD 20

/-- Fallback AI score (orchestrator.py lines 189-195). -/
def fbAiScore (jitter shimmer hnr : Rat) : Nat :=
  (if jitter < 8/1000 then 1 else 0) + (if shimmer < 25/1000 then 1 else 0) +
    (if 26 < hnr then 1 else 0)

/-- Fallback human score (orchestrator.py lines 198-204). -/
def fbHumanScore (jitter shimmer hnr : Rat) : Nat :=
  (if 15/1000 < jitter then 1 else 0) + (if 4/100 < shimmer then 1 else 0) +
    (if hnr < 24 then 1 else 0)

def fbAiExplanation (reason : String) (jitter shimmer hnr : Rat) : String :=
  reason ++ ". Acoustic indicators suggest AI (jitter=" ++ toString jitter ++
    ", shimmer=" ++ toString shimmer ++ ", HNR=" ++ toString hnr ++ ")."

def fbHumanExplanation (reason : String) (jitter shimmer hnr : Rat) : String :=
  reason ++ ". Acoustic indicators suggest human (jitter=" ++ toString jitter ++
    ", shimmer=" ++ toString shimmer ++ ", HNR=" ++ toString hnr ++ ")."

/-- The score-based tail of `_create_fallback_response` (orchestrator.py
lines 188-225): AI on `ai_score >= 2 and human_score == 0`, with confidence
`round(0.55 + ai_score*0.1, 3)`; otherwise Human with confidence
`round(min(0.85, max(0.55, 0.55 + human_score*0.1)), 3)`. -/
def fallbackScoring (jitter shimmer hnr : Rat) (reason : String) : OrchResult :=
  if 2 ≤ fbAiScore jitter shimmer hnr ∧ fbHumanScore jitter shimmer hnr = 0 then
    { classification := "AI-Generated",
      confidence := pyRound3 (11/20 + (fbAiScore jitter shimmer hnr : Rat) * (1/10)),
      explanation := fbAiExplanation reason jitter shimmer hnr,
      model_version := "v1.2-fallback-ai",
      decision_threshold := 1/2 }
  else
    { classification := "Human",
      confidence := pyRound3 (min (85/100) (max (11/20)
        (11/20 + (fbHumanScore jitter shimmer hnr : Rat) * (1/10)))),
      explanation := fbHumanExplanation reason jitter shimmer hnr,
      model_version := "v1.2-fallback-human",
      decision_threshold := 1/2 }

/-- `_create_fallback_response` (orchestrator.py lines 164-225): resolves the
acoustic values (fixed defaults when `features` is `None`), honours a
`fast_gate_hint` equal to `"AI"`, and otherwise scores acoustically. The
`request_id` parameter is used only for logging in the source. -/
def _create_fallback_response (features : Option AcousticBundle)
    (request_id : String) (reason : String) (fast_gate_hint : Option String) :
    OrchResult :=
  let jitter := fbJitter features
  let shimmer := fbShimmer features
  let hnr := fbHnr features
  match fast_gate_hint with
  | some hint =>
      if hint = "AI" then
        { classification := "AI-Generated",
          confidence := 13/20,
          explanation := reason ++ ". Earlier acoustic analysis suggested AI-generated audio.",
          model_version := "v1.2-fallback-ai",
          decision_threshold := 1/2 }
      else fallbackScoring jitter shimmer hnr reason
  | none => fallbackScoring jitter shimmer hnr reason

/-- The fallback synthesizer exactly as the pipeline invokes it: the
`fast_gate_hint` argument replaced by the acoustic-only scoring path. Used to
state that the hint branch is unreachable in `detect_voice`. -/
def fallbackAcousticDecision (features : Option AcousticBundle) (reason : String) :
    OrchResult :=
  fallbackScoring (fbJitter features) (fbShimmer features) (fbHnr features) reason

/- ===================== Orchestrator (orchestrator.py) ===================== -/

def fastGateHumanExplanation (f : FastFeatures) : String :=
  "Fast acoustic gate: human speech detected (ZCR=" ++ toString f.zcr ++
    ", silence=" ++ toString f.silence_fraction ++ ")."

def fastGateAiExplanation (f : FastFeatures) : String :=
  "Fast acoustic gate: AI speech detected (ZCR=" ++ toString f.zcr ++
    ", RMS_var=" ++ toString f.rms_variance ++ ")."

/-- The post-extraction phase of `detect_voice` (orchestrator.py lines
103-161): post-extraction gate, then inference; an inference exception routes
to the fallback, keeping the extracted bundle. -/
def afterExtraction (bundle : AcousticBundle)
    (inferOutcome : Except String OrchResult) (request_id : String) :
    Except String OrchResult :=
  match postExtractionGate (pgJitter bundle) (pgShimmer bundle) (pgHnr bundle) with
  | some r => .ok r
  | none =>
      match inferOutcome with
      | .ok r => .ok r
      | .error e =>
          .ok (_create_fallback_response (some bundle) request_id
            ("Inference failed: " ++ e.take 50) none)

/-- `detect_voice` (orchestrator.py lines 40-161).
`gateOutcome` is the outcome of the guarded `fast_gate.check` call
(`.error` = caught exception, `.ok none` = inconclusive);
`partsAvailable` is `part1 and part2` having imported;
`featOutcome` is the outcome of `part1.extract_features`;
`inferOutcome` is the outcome of `part2.infer`.
The local `fast_gate_hint` is initialized to `None` at line 57 and never
reassigned, so every fallback call below passes `none` for it. -/
def detectVoice (gateOutcome : Except String (Option GateResult))
    (partsAvailable : Bool) (featOutcome : Except String AcousticBundle)
    (inferOutcome : Except String OrchResult) (request_id : String) :
    Except String OrchResult :=
  match gateOutcome with
  | .ok (some g) =>
      if g.is_human then
        .ok { classification := "Human",
              confidence := pyRound3 g.confidence,
              explanation := fastGateHumanExplanation g.features,
              model_version := "v1.2-fast-gate",
              decision_threshold := 1/2 }
      else
        .ok { classification := "AI-Generated",
              confidence := pyRound3 g.confidence,
              explanation := fastGateAiExplanation g.features,
              model_version := "v1.2-fast-gate",
              decision_threshold := 1/2 }
  | _ =>
      if partsAvailable then
        match featOutcome with
        | .error e =>
            .ok (_create_fallback_response none request_id
              ("Feature extraction failed: " ++ e.take 50) none)
        | .ok bundle => afterExtraction bundle inferOutcome request_id
      else
        .ok (_create_fallback_response none request_id
          "Model backend not available" none)

/-- `afterExtraction` with the unreachable hint branch of the fallback
removed (comparison target for the hint-unreachability claim). -/
def afterExtractionNoHint (bundle : AcousticBundle)
    (inferOutcome : Except String OrchResult) (request_id : String) :
    Except String OrchResult :=
  match postExtractionGate (pgJitter bundle) (pgShimmer bundle) (pgHnr bundle) with
  | some r => .ok r
  | none =>
      match inferOutcome with
      | .ok r => .ok r
      | .error e =>
          .ok (fallbackAcousticDecision (some bundle) ("Inference failed: " ++ e.take 50))

/-- `detect_voice` with every fallback call replaced by the acoustic-only
scoring path (no hint parameter at all): the comparison target showing the
hint branch is dead code in this pipeline. -/
def detectVoiceNoHint (gateOutcome : Except String (Option GateResult))
    (partsAvailable : Bool) (featOutcome : Except String AcousticBundle)
    (inferOutcome : Except String OrchResult) (request_id : String) :
    Except String OrchResult :=
  match gateOutcome with
  | .ok (some g) =>
      if g.is_human then
        .ok { classification := "Human",
              confidence := pyRound3 g.confidence,
              explanation := fastGateHumanExplanation g.features,
              model_version := "v1.2-fast-gate",
              decision_threshold := 1/2 }
      else
        .ok { classification := "AI-Generated",
              confidence := pyRound3 g.confidence,
              explanation := fastGateAiExplanation g.features,
              model_version := "v1.2-fast-gate",
              decision_threshold := 1/2 }
  | _ =>
      if partsAvailable then
        match featOutcome with
        | .error e =>
            .ok (fallbackAcousticDecision none ("Feature extraction failed: " ++ e.take 50))
        | .ok bundle => afterExtractionNoHint bundle inferOutcome request_id
      else
        .ok (fallbackAcousticDecision none "Model backend not available")

/- ===================== Endpoint (routes.py) ===================== -/

/-- The `asyncio.wait_for` block and response construction of
`detect_voice_endpoint` (routes.py lines 113-155): `none` models
`asyncio.TimeoutError` (the deadline elapsed before the cascade finished,
regardless of its progress), `some r` models a completed cascade. -/
def runWithDeadline (raceOutcome : Option OrchResult) (request_id : String) :
    DetectResponse :=
  match raceOutcome with
  | none =>
      { classification := "Human",
        confidence := 3/5,
        explanation := "Fallback due to processing timeout. Acoustic analysis suggests human speech.",
        model_version := "v1.1-timeout-safe",
        request_id := request_id }
  | some r =>
      { classification := r.classification,
        confidence := r.confidence,
        explanation := r.explanation,
        model_version := r.model_version,
        request_id := request_id }

/- ===================== Concrete inputs for witnesses ===================== -/

/-- The spec §8 example clip statistics: duration 2 s, ZCR 0.2, silence
fraction 0.1, RMS variance 0.01. -/
def exampleFeatures : FastFeatures :=
  { duration := 2, rms := 1/10, rms_variance := 1/100, zcr := 1/5,
    silence_fraction := 1/10 }

/-- A conclusive human fast-gate result used to exercise the orchestrator. -/
def exampleGateResult : GateResult :=
  { is_human := true, confidence := 4/5, features := exampleFeatures }

/-- 44 bytes: a RIFF magic, channel count 1, sample-rate field 0,
bits-per-sample 16, and an empty payload. -/
def c4Bytes : List Nat :=
  [82, 73, 70, 70, 0, 0, 0, 0, 0, 0, 0, 0, 0, 0, 0, 0, 0, 0, 0, 0, 0, 0,
   1, 0, 0, 0, 0, 0, 0, 0, 0, 0, 0, 0, 16, 0, 0, 0, 0, 0, 0, 0, 0, 0]

/-- 46 bytes: a RIFF magic, channel count 1, sample rate 16000,
bits-per-sample 16, and one 16-bit zero sample. -/
def wavOneSample : List Nat :=
  [82, 73, 70, 70, 0, 0, 0, 0, 0, 0, 0, 0, 0, 0, 0, 0, 0, 0, 0, 0, 0, 0,
   1, 0, 128, 62, 0, 0, 0, 0, 0, 0, 0, 0, 16, 0, 0, 0, 0, 0, 0, 0, 0, 0,
   0, 0]

/- ===================== Helper lemmas ===================== -/

theorem pyRound3_exact (q : Rat) (n : Int) (h : q * 1000 = (n : Rat)) :
    pyRound3 q = q := by
  unfold pyRound3
  rw [h, round_intCast, ← h,
    mul_div_cancel_right₀ _ (by norm_num : (1000 : Rat) ≠ 0)]

theorem humanConfidence_bounds (f : FastFeatures) :
    3/4 ≤ humanConfidence f ∧ humanConfidence f ≤ 9/10 := by
  unfold humanConfidence
  split_ifs <;> constructor <;> norm_num [min_def]

theorem aiConfidence_bounds (f : FastFeatures) :
    3/4 ≤ aiConfidence f ∧ aiConfidence f ≤ 9/10 := by
  unfold aiConfidence
  split_ifs <;> constructor <;> norm_num [min_def]

theorem fbAiScore_le_three (j s h : Rat) : fbAiScore j s h ≤ 3 := by
  unfold fbAiScore
  split_ifs <;> norm_num

theorem fbHumanScore_le_three (j s h : Rat) : fbHumanScore j s h ≤ 3 := by
  unfold fbHumanScore
  split_ifs <;> norm_num

/- ===================== Claim C2 ===================== -/

/-- Claim C2: if the deadline elapses before the cascade completes, the
caller receives the fixed timeout fallback: classification Human, fixed
confidence 0.6, and the timeout-sourced version tag, regardless of how far
the pipeline had progressed (the race outcome `none` discards any partial
progress). -/
theorem timeout_yields_fixed_fallback (request_id : String) :
    runWithDeadline none request_id =
      { classification := "Human",
        confidence := 3/5,
        explanation := "Fallback due to processing timeout. Acoustic analysis suggests human speech.",
        model_version := "v1.1-timeout-safe",
        request_id := request_id } := rfl

/- ===================== Claim C7 ===================== -/

/-- Claim C7: the Fast Gate's Human rule and AI rule cannot both hold on
the same FastFeatures value: the human rule demands RMS variance above
0.001 while the AI rule demands it below 0.0005 (and similarly for ZCR). -/
theorem fast_gate_rules_disjoint (f : FastFeatures) (h : isLikelyHuman f) :
    ¬ isLikelyAI f := by
  intro hai
  unfold isLikelyHuman RMS_VARIANCE_MIN ZCR_MIN SILENCE_RATIO_MAX at h
  unfold isLikelyAI AI_RMS_VARIANCE_MAX AI_ZCR_MAX AI_SILENCE_RATIO_MAX at hai
  linarith [h.1, hai.1]

/-- Witness for C7: the spec §8 example clip satisfies the Human rule and
therefore (by the theorem) not the AI rule. -/
theorem fast_gate_rules_disjoint_witness :
    isLikelyHuman exampleFeatures ∧ ¬ isLikelyAI exampleFeatures :=
  ⟨by norm_num [isLikelyHuman, exampleFeatures, RMS_VARIANCE_MIN, ZCR_MIN,
      SILENCE_RATIO_MAX],
   fast_gate_rules_disjoint exampleFeatures
     (by norm_num [isLikelyHuman, exampleFeatures, RMS_VARIANCE_MIN, ZCR_MIN,
        SILENCE_RATIO_MAX])⟩

/- ===================== Claim C6 ===================== -/

/-- Claim C6: whenever the Fast Gate is conclusive (Human or AIGenerated),
its confidence lies in [0.75, 0.90] (base 0.75, +0.05 per satisfied stricter
sub-condition, capped at 0.90). -/
theorem fast_gate_confidence_bounds (f : FastFeatures) (g : GateResult)
    (h : fastGateDecision f = some g) :
    3/4 ≤ g.confidence ∧ g.confidence ≤ 9/10 := by
  unfold fastGateDecision at h
  split_ifs at h
  · cases Option.some.inj h
    exact humanConfidence_bounds f
  · cases Option.some.inj h
    exact aiConfidence_bounds f

/-- Witness for C6: the spec §8 example clip is conclusively Human with
confidence exactly 0.90, which lies in the interval. -/
theorem fast_gate_confidence_bounds_witness :
    3/4 ≤ (9/10 : Rat) ∧ (9/10 : Rat) ≤ 9/10 := by
  have h1 : ¬ (DURATION_MAX < exampleFeatures.duration) := by
    norm_num [DURATION_MAX, exampleFeatures]
  have h2 : isLikelyHuman exampleFeatures := by
    norm_num [isLikelyHuman, exampleFeatures, RMS_VARIANCE_MIN, ZCR_MIN,
      SILENCE_RATIO_MAX]
  have hdec : fastGateDecision exampleFeatures =
      some ⟨true, 9/10, exampleFeatures⟩ := by
    unfold fastGateDecision
    rw [if_neg h1, if_pos h2]
    norm_num [humanConfidence, exampleFeatures, min_def]
  exact fast_gate_confidence_bounds exampleFeatures ⟨true, 9/10, exampleFeatures⟩ hdec

/- ===================== Claim C5 ===================== -/

/-- Claim C5: for every acoustic value triple, the Post-Extraction Gate
never emits AIGenerated when its human score is positive, and an
AIGenerated verdict implies AI score at least 2 and human score exactly 0. -/
theorem post_gate_ai_requires_unanimity (jitter shimmer hnr : Rat) :
    (∀ r, postExtractionGate jitter shimmer hnr = some r →
        r.classification = "AI-Generated" →
        2 ≤ postAiScore jitter shimmer hnr ∧
          postHumanScore jitter shimmer hnr = 0) ∧
    (0 < postHumanScore jitter shimmer hnr →
      ∀ r, postExtractionGate jitter shimmer hnr = some r →
        r.classification ≠ "AI-Generated") := by
  constructor
  · intro r hr hcls
    unfold postExtractionGate at hr
    split_ifs at hr with h1 h2
    · exact h1
    · cases Option.some.inj hr
      have hcls' : "Human" = "AI-Generated" := hcls
      exact absurd hcls' (by decide)
  · intro hpos r hr hcls
    unfold postExtractionGate at hr
    split_ifs at hr with h1 h2
    · omega
    · cases Option.some.inj hr
      have hcls' : "Human" = "AI-Generated" := hcls
      exact absurd hcls' (by decide)

/-- Witness for C5: the spec §8 example bundle (jitter 0.002, shimmer 0.01,
HNR 30) fires the AI verdict with scores (3, 0); a human-typical bundle
(jitter 0.02, shimmer 0.04, HNR 20) has positive human score and therefore
(by the theorem) cannot be classified AIGenerated. -/
theorem post_gate_ai_requires_unanimity_witness :
    (2 ≤ postAiScore (2/1000) (1/100) 30 ∧ postHumanScore (2/1000) (1/100) 30 = 0) ∧
    OrchResult.classification
      { classification := "Human",
        confidence := min (9/10) (7/10 + (postHumanScore (2/100) (4/100) 20 : Rat) * (1/10)),
        explanation := postGateHumanExplanation (2/100) (4/100) 20,
        model_version := "v1.2-acoustic-gate",
        decision_threshold := 1/2 } ≠ "AI-Generated" := by
  have hcondAi : 2 ≤ postAiScore (2/1000) (1/100) 30 ∧
      postHumanScore (2/1000) (1/100) 30 = 0 := by
    norm_num [postAiScore, postHumanScore]
  have hgateAi : postExtractionGate (2/1000) (1/100) 30 =
      some { classification := "AI-Generated",
             confidence := min (9/10) (7/10 + (postAiScore (2/1000) (1/100) 30 : Rat) * (1/10)),
             explanation := postGateAiExplanation (2/1000) (1/100) 30,
             model_version := "v1.2-acoustic-gate",
             decision_threshold := 1/2 } := by
    unfold postExtractionGate
    rw [if_pos hcondAi]
  have hposHu : 0 < postHumanScore (2/100) (4/100) 20 := by
    norm_num [postHumanScore]
  have hcondAi2 : ¬ (2 ≤ postAiScore (2/100) (4/100) 20 ∧
      postHumanScore (2/100) (4/100) 20 = 0) := by
    norm_num [postAiScore, postHumanScore]
  have hcondHu : 2 ≤ postHumanScore (2/100) (4/100) 20 := by
    norm_num [postHumanScore]
  have hgateHu : postExtractionGate (2/100) (4/100) 20 =
      some { classification := "Human",
             confidence := min (9/10) (7/10 + (postHumanScore (2/100) (4/100) 20 : Rat) * (1/10)),
             explanation := postGateHumanExplanation (2/100) (4/100) 20,
             model_version := "v1.2-acoustic-gate",
             decision_threshold := 1/2 } := by
    unfold postExtractionGate
    rw [if_neg hcondAi2, if_pos hcondHu]
  exact ⟨(post_gate_ai_requires_unanimity (2/1000) (1/100) 30).1 _ hgateAi rfl,
    (post_gate_ai_requires_unanimity (2/100) (4/100) 20).2 hposHu _ hgateHu⟩

/- ===================== Claim C8 ===================== -/

theorem fallbackScoring_conf_bounds (j s h : Rat) (reason : String) :
    11/20 ≤ (fallbackScoring j s h reason).confidence ∧
      (fallbackScoring j s h reason).confidence ≤ 9/10 := by
  unfold fallbackScoring
  split_ifs with hc
  · have h3 := fbAiScore_le_three j s h
    have h2 := hc.1
    dsimp only
    set a := fbAiScore j s h with ha
    interval_cases a
    · rw [pyRound3_exact _ 750 (by push_cast; norm_num)]
      constructor <;> norm_num
    · rw [pyRound3_exact _ 850 (by push_cast; norm_num)]
      constructor <;> norm_num
  · have h3 := fbHumanScore_le_three j s h
    dsimp only
    set k := fbHumanScore j s h with hk
    interval_cases k
    · rw [pyRound3_exact _ 550 (by push_cast; norm_num [min_def, max_def])]
      constructor <;> norm_num [min_def, max_def]
    · rw [pyRound3_exact _ 650 (by push_cast; norm_num [min_def, max_def])]
      constructor <;> norm_num [min_def, max_def]
    · rw [pyRound3_exact _ 750 (by push_cast; norm_num [min_def, max_def])]
      constructor <;> norm_num [min_def, max_def]
    · rw [pyRound3_exact _ 850 (by push_cast; norm_num [min_def, max_def])]
      constructor <;> norm_num [min_def, max_def]

/-- Claim C8: the Fallback Synthesizer always returns a result whose
confidence lies in [0.55, 0.90] (it is a total function, so it is always
conclusive), and when no acoustic bundle is available — `features` is
`None`, so the fixed human-typical defaults are used — and no fast-gate
hint is carried (the pipeline always passes `None`, see the C9 theorem),
its classification is Human. -/
theorem fallback_conf_bounds_and_default_human (features : Option AcousticBundle)
    (rid reason : String) (hint : Option String) :
    (11/20 ≤ (_create_fallback_response features rid reason hint).confidence ∧
      (_create_fallback_response features rid reason hint).confidence ≤ 9/10) ∧
    (features = none → hint = none →
      (_create_fallback_response features rid reason hint).classification = "Human") := by
  constructor
  · unfold _create_fallback_response
    rcases hint with _ | hintVal
    · exact fallbackScoring_conf_bounds _ _ _ _
    · dsimp only
      split_ifs
      · dsimp only
        constructor <;> norm_num
      · exact fallbackScoring_conf_bounds _ _ _ _
  · rintro rfl rfl
    have hcond : ¬ (2 ≤ fbAiScore (fbJitter none) (fbShimmer none) (fbHnr none) ∧
        fbHumanScore (fbJitter none) (fbShimmer none) (fbHnr none) = 0) := by
      norm_num [fbAiScore, fbJitter, fbShimmer, fbHnr]
    have hrw : _create_fallback_response none rid reason none =
        fallbackScoring (fbJitter none) (fbShimmer none) (fbHnr none) reason := rfl
    rw [hrw]
    unfold fallbackScoring
    rw [if_neg hcond]

/-- Witness for C8: with no acoustic bundle and no hint, the fallback
classifies Human (and the hypotheses `features = none`, `hint = none` are
discharged by `rfl`). -/
theorem fallback_conf_bounds_and_default_human_witness :
    (_create_fallback_response none "req-w8" "no backend" none).classification = "Human" :=
  (fallback_conf_bounds_and_default_human none "req-w8" "no backend" none).2 rfl rfl

/- ===================== Claim C10 ===================== -/

/-- Claim C10: the Fallback Synthesizer, as the pipeline invokes it (hint
`None`), applies the same asymmetric tie-break as the Post-Extraction Gate:
it classifies AIGenerated only when its AI score is at least 2 and its human
score is exactly 0, and whenever its human score is positive it classifies
Human. -/
theorem fallback_tie_break (features : Option AcousticBundle) (rid reason : String) :
    ((_create_fallback_response features rid reason none).classification = "AI-Generated" →
      2 ≤ fbAiScore (fbJitter features) (fbShimmer features) (fbHnr features) ∧
        fbHumanScore (fbJitter features) (fbShimmer features) (fbHnr features) = 0) ∧
    (0 < fbHumanScore (fbJitter features) (fbShimmer features) (fbHnr features) →
      (_create_fallback_response features rid reason none).classification = "Human") := by
  have hrw : _create_fallback_response features rid reason none =
      fallbackScoring (fbJitter features) (fbShimmer features) (fbHnr features) reason := rfl
  rw [hrw]
  unfold fallbackScoring
  split_ifs with hc
  · constructor
    · intro _
      exact hc
    · intro hpos
      exact absurd hc.2 (by omega)
  · constructor
    · intro habs
      have habs' : "Human" = "AI-Generated" := habs
      exact absurd habs' (by decide)
    · intro _
      rfl

/-- Witness for C10: an AI-typical bundle (jitter 0.001, shimmer 0.01,
HNR 30) is classified AIGenerated and indeed has scores (3, 0); with no
bundle the defaults give positive human score, forcing Human. -/
theorem fallback_tie_break_witness :
    (2 ≤ fbAiScore (fbJitter (some ⟨some (1/1000), none, some (1/100), none, some 30⟩))
          (fbShimmer (some ⟨some (1/1000), none, some (1/100), none, some 30⟩))
          (fbHnr (some ⟨some (1/1000), none, some (1/100), none, some 30⟩)) ∧
      fbHumanScore (fbJitter (some ⟨some (1/1000), none, some (1/100), none, some 30⟩))
          (fbShimmer (some ⟨some (1/1000), none, some (1/100), none, some 30⟩))
          (fbHnr (some ⟨some (1/1000), none, some (1/100), none, some 30⟩)) = 0) ∧
    (_create_fallback_response none "req-w10" "no backend" none).classification = "Human" := by
  have hcls : (_create_fallback_response
      (some ⟨some (1/1000), none, some (1/100), none, some 30⟩) "req-w10" "no backend"
      none).classification = "AI-Generated" := by
    have hrw : _create_fallback_response
        (some ⟨some (1/1000), none, some (1/100), none, some 30⟩) "req-w10" "no backend" none =
        fallbackScoring (fbJitter (some ⟨some (1/1000), none, some (1/100), none, some 30⟩))
          (fbShimmer (some ⟨some (1/1000), none, some (1/100), none, some 30⟩))
          (fbHnr (some ⟨some (1/1000), none, some (1/100), none, some 30⟩)) "no backend" := rfl
    rw [hrw]
    unfold fallbackScoring
    rw [if_pos (by norm_num [fbAiScore, fbHumanScore, fbJitter, fbShimmer, fbHnr, bundleGet])]
  have hpos : 0 < fbHumanScore (fbJitter none) (fbShimmer none) (fbHnr none) := by
    norm_num [fbHumanScore, fbJitter, fbShimmer, fbHnr]
  exact ⟨(fallback_tie_break
      (some ⟨some (1/1000), none, some (1/100), none, some 30⟩) "req-w10" "no backend").1 hcls,
    (fallback_tie_break none "req-w10" "no backend").2 hpos⟩

/- ===================== Claim C9 ===================== -/

theorem afterExtraction_eq_noHint (bundle : AcousticBundle)
    (inferOutcome : Except String OrchResult) (rid : String) :
    afterExtraction bundle inferOutcome rid =
      afterExtractionNoHint bundle inferOutcome rid := by
  unfold afterExtraction afterExtractionNoHint
  cases postExtractionGate (pgJitter bundle) (pgShimmer bundle) (pgHnr bundle)
  · cases inferOutcome
    · rfl
    · rfl
  · rfl

/-- Claim C9: in every execution of `detect_voice`, the fast-gate hint
variable passed to the fallback synthesizer remains `None` (it is set at
line 57 and never reassigned), so the pipeline behaves exactly like the
variant in which the fallback's hint branch (version `v1.2-fallback-ai`
with confidence 0.65) is removed: the fallback decision is a function of
the acoustic feature values only. -/
theorem fallback_hint_unreachable (gateOutcome : Except String (Option GateResult))
    (partsAvailable : Bool) (featOutcome : Except String AcousticBundle)
    (inferOutcome : Except String OrchResult) (request_id : String) :
    detectVoice gateOutcome partsAvailable featOutcome inferOutcome request_id =
      detectVoiceNoHint gateOutcome partsAvailable featOutcome inferOutcome request_id := by
  rcases gateOutcome with e | og
  · cases partsAvailable
    · rfl
    · rcases featOutcome with e2 | bundle
      · rfl
      · exact afterExtraction_eq_noHint bundle inferOutcome request_id
  · rcases og with _ | g
    · cases partsAvailable
      · rfl
      · rcases featOutcome with e2 | bundle
        · rfl
        · exact afterExtraction_eq_noHint bundle inferOutcome request_id
    · rfl

/- ===================== Claim C1 ===================== -/

theorem afterExtraction_always_ok (bundle : AcousticBundle)
    (inferOutcome : Except String OrchResult) (rid : String) :
    ∃ r, afterExtraction bundle inferOutcome rid = .ok r := by
  unfold afterExtraction
  cases postExtractionGate (pgJitter bundle) (pgShimmer bundle) (pgHnr bundle)
  · cases inferOutcome
    · exact ⟨_, rfl⟩
    · exact ⟨_, rfl⟩
  · exact ⟨_, rfl⟩

/-- Claim C1: for every combination of stage outcomes — the fast gate
conclusive, inconclusive, or raising; the part1/part2 backends present or
missing; feature extraction succeeding or raising; inference succeeding or
raising — `detect_voice` returns exactly one result and never propagates an
exception (`.error`) past the orchestrator boundary. -/
theorem detect_voice_always_ok (gateOutcome : Except String (Option GateResult))
    (partsAvailable : Bool) (featOutcome : Except String AcousticBundle)
    (inferOutcome : Except String OrchResult) (request_id : String) :
    ∃ r, detectVoice gateOutcome partsAvailable featOutcome inferOutcome request_id =
      .ok r := by
  rcases gateOutcome with e | og
  · cases partsAvailable
    · exact ⟨_, rfl⟩
    · rcases featOutcome with e2 | bundle
      · exact ⟨_, rfl⟩
      · exact afterExtraction_always_ok bundle inferOutcome request_id
  · rcases og with _ | g
    · cases partsAvailable
      · exact ⟨_, rfl⟩
      · rcases featOutcome with e2 | bundle
        · exact ⟨_, rfl⟩
        · exact afterExtraction_always_ok bundle inferOutcome request_id
    · rcases g with ⟨ih, conf, feats⟩
      cases ih
      · exact ⟨_, rfl⟩
      · exact ⟨_, rfl⟩

/- ===================== Claim C3 ===================== -/

theorem fallbackScoring_threshold (j s h : Rat) (reason : String) :
    (fallbackScoring j s h reason).decision_threshold = 1/2 := by
  unfold fallbackScoring
  split_ifs <;> rfl

theorem create_fallback_threshold (f : Option AcousticBundle) (rid reason : String)
    (hint : Option String) :
    (_create_fallback_response f rid reason hint).decision_threshold = 1/2 := by
  unfold _create_fallback_response
  rcases hint with _ | hintVal
  · exact fallbackScoring_threshold _ _ _ _
  · dsimp only
    split_ifs
    · rfl
    · exact fallbackScoring_threshold _ _ _ _

theorem postExtractionGate_threshold (j s h : Rat) (r : OrchResult)
    (hr : postExtractionGate j s h = some r) : r.decision_threshold = 1/2 := by
  unfold postExtractionGate at hr
  split_ifs at hr
  · cases Option.some.inj hr
    rfl
  · cases Option.some.inj hr
    rfl

theorem afterExtraction_threshold (bundle : AcousticBundle)
    (infer : Except String OrchResult) (rid : String) (r : OrchResult)
    (hinf : ∀ x, infer = Except.ok x → x.decision_threshold = 1/2)
    (hr : afterExtraction bundle infer rid = .ok r) : r.decision_threshold = 1/2 := by
  unfold afterExtraction at hr
  revert hr
  cases hpg : postExtractionGate (pgJitter bundle) (pgShimmer bundle) (pgHnr bundle) with
  | none =>
      intro hr
      rcases infer with e | x
      · injection hr with h
        rw [← h]
        exact create_fallback_threshold _ _ _ _
      · injection hr with h
        rw [← h]
        exact hinf x rfl
  | some rp =>
      intro hr
      injection hr with h
      rw [← h]
      exact postExtractionGate_threshold _ _ _ _ hpg

/-- A concrete orchestrator result, used to exhibit a concrete response. -/
def sampleOrchResult : OrchResult :=
  { classification := "Human", confidence := 3/4, explanation := "sample",
    model_version := "v1.2-fast-gate", decision_threshold := 1/2 }

/-- Counterexample to claim C3 as stated: for a concrete completed request,
the response handed to the caller carries exactly the five fields of
`DetectResponse` — `decision_threshold` is not among them (routes.py builds
`DetectResponse` from the orchestrator dict and drops that key). -/
theorem response_lacks_threshold_field :
    (List.map Prod.fst (DetectResponse.toFields (runWithDeadline (some sampleOrchResult) "req-1")) =
      ["classification", "confidence", "explanation", "model_version", "request_id"]) ∧
    ((List.map Prod.fst (DetectResponse.toFields
        (runWithDeadline (some sampleOrchResult) "req-1"))).contains "decision_threshold" = false) := by
  constructor
  · rfl
  · rfl

/-- Claim C3 (amended): the response returned to the caller contains
classification, confidence, explanation, version tag, and request
identifier — and nothing else; the fixed decision threshold 0.5 is present
in every result the orchestrator itself produces (given the external
inference collaborator also tags 0.5), but it is not echoed to the caller. -/
theorem threshold_internal_not_echoed :
    (∀ (r : OrchResult) (rid : String),
      List.map Prod.fst (DetectResponse.toFields (runWithDeadline (some r) rid)) =
        ["classification", "confidence", "explanation", "model_version", "request_id"]) ∧
    (∀ (gateOutcome : Except String (Option GateResult)) (partsAvailable : Bool)
        (featOutcome : Except String AcousticBundle)
        (inferOutcome : Except String OrchResult) (request_id : String) (r : OrchResult),
      (∀ x, inferOutcome = Except.ok x → x.decision_threshold = 1/2) →
      detectVoice gateOutcome partsAvailable featOutcome inferOutcome request_id =
        Except.ok r →
      r.decision_threshold = 1/2) := by
  constructor
  · intro r rid
    rfl
  · intro gate parts feat infer rid r hinf hr
    rcases gate with e | og
    · cases parts
      · injection hr with h
        rw [← h]
        exact create_fallback_threshold _ _ _ _
      · rcases feat with e2 | bundle
        · injection hr with h
          rw [← h]
          exact create_fallback_threshold _ _ _ _
        · exact afterExtraction_threshold bundle infer rid r hinf hr
    · rcases og with _ | g
      · cases parts
        · injection hr with h
          rw [← h]
          exact create_fallback_threshold _ _ _ _
        · rcases feat with e2 | bundle
          · injection hr with h
            rw [← h]
            exact create_fallback_threshold _ _ _ _
          · exact afterExtraction_threshold bundle infer rid r hinf hr
      · rcases g with ⟨ih, conf, feats⟩
        cases ih
        · injection hr with h
          rw [← h]
        · injection hr with h
          rw [← h]

/-- Witness for the amended C3: a concrete response field list, and a
concrete run (conclusive fast gate, inference never consulted) whose
orchestrator result carries threshold 1/2. -/
theorem threshold_internal_not_echoed_witness :
    (List.map Prod.fst (DetectResponse.toFields (runWithDeadline (some sampleOrchResult) "req-2")) =
      ["classification", "confidence", "explanation", "model_version", "request_id"]) ∧
    OrchResult.decision_threshold
      { classification := "Human",
        confidence := pyRound3 exampleGateResult.confidence,
        explanation := fastGateHumanExplanation exampleGateResult.features,
        model_version := "v1.2-fast-gate",
        decision_threshold := 1/2 } = 1/2 :=
  ⟨threshold_internal_not_echoed.1 sampleOrchResult "req-2",
   threshold_internal_not_echoed.2 (Except.ok (some exampleGateResult)) true
     (Except.ok emptyBundle) (Except.error "down") "req-2"
     { classification := "Human",
       confidence := pyRound3 exampleGateResult.confidence,
       explanation := fastGateHumanExplanation exampleGateResult.features,
       model_version := "v1.2-fast-gate",
       decision_threshold := 1/2 }
     (fun x hx => nomatch hx) rfl⟩

/- ===================== Claim C4 ===================== -/

theorem pcm16Samples_ne_nil (data : List Nat) (hd : data ≠ []) (s : List Rat)
    (hs : pcm16Samples data = some s) : s ≠ [] := by
  cases data with
  | nil => exact absurd rfl hd
  | cons lo rest =>
    cases rest with
    | nil => exact absurd hs (by simp [pcm16Samples])
    | cons hi rest2 =>
      unfold pcm16Samples at hs
      rcases h2 : pcm16Samples rest2 with _ | s2
      · rw [h2] at hs
        exact absurd hs (by simp)
      · rw [h2] at hs
        simp only [Option.map_some'] at hs
        cases Option.some.inj hs
        exact List.cons_ne_nil _ _

theorem pcm8Samples_ne_nil (data : List Nat) (hd : data ≠ []) :
    pcm8Samples data ≠ [] := by
  unfold pcm8Samples
  intro hnil
  exact hd (List.map_eq_nil_iff.mp hnil)

theorem everyOther_ne_nil (l : List Rat) (h : l ≠ []) : everyOther l ≠ [] := by
  cases l with
  | nil => exact absurd rfl h
  | cons x rest =>
    cases rest with
    | nil => exact List.cons_ne_nil _ _
    | cons y rest2 => exact List.cons_ne_nil _ _

/-- Counterexample to claim C4 as stated: a 44-byte buffer with the RIFF
magic, channel count 1, sample-rate field 0, bits-per-sample 16 and an
empty payload is decoded (not reported unsupported), yet the returned pair
has an empty sample list and sample rate 0, violating both halves of the
AudioSample invariant. -/
theorem decode_wav_invariant_fails : _decode_wav c4Bytes = some ([], 0) := rfl

/-- Claim C4 (amended): every `(samples, sampleRate)` pair the Waveform
Decoder returns satisfies the AudioSample invariant provided the input has
a non-empty payload past the 44-byte header and a non-zero sample-rate
header field; the decoder itself validates neither. -/
theorem decode_wav_invariant_conditional (b : List Nat) (s : List Rat) (r : Nat)
    (hlen : 44 < b.length) (hrate : 0 < readLE32 b 24)
    (hdec : _decode_wav b = some (s, r)) : s ≠ [] ∧ 0 < r := by
  unfold _decode_wav at hdec
  rw [if_neg (by omega)] at hdec
  have hdata : b.drop 44 ≠ [] := by
    intro hnil
    have hlen2 : (b.drop 44).length = b.length - 44 := List.length_drop _ _
    rw [hnil] at hlen2
    simp at hlen2
    omega
  dsimp only at hdec
  by_cases hb16 : readLE16 b 34 = 16
  · rw [if_pos hb16] at hdec
    rcases hps : pcm16Samples (List.drop 44 b) with _ | samples
    · rw [hps] at hdec
      exact absurd hdec (by simp)
    · rw [hps] at hdec
      simp only [Option.map_some'] at hdec
      have hpair := Option.some.inj hdec
      have hsamp : samples ≠ [] := pcm16Samples_ne_nil _ hdata _ hps
      have hfst : (if readLE16 b 22 = 2 then everyOther samples else samples) = s :=
        congrArg Prod.fst hpair
      have hsnd : readLE32 b 24 = r := congrArg Prod.snd hpair
      constructor
      · rw [← hfst]
        split_ifs
        · exact everyOther_ne_nil _ hsamp
        · exact hsamp
      · omega
  · rw [if_neg hb16] at hdec
    by_cases hb8 : readLE16 b 34 = 8
    · rw [if_pos hb8] at hdec
      simp only [Option.map_some'] at hdec
      have hpair := Option.some.inj hdec
      have hsamp : pcm8Samples (List.drop 44 b) ≠ [] := pcm8Samples_ne_nil _ hdata
      have hfst : (if readLE16 b 22 = 2 then everyOther (pcm8Samples (List.drop 44 b))
          else pcm8Samples (List.drop 44 b)) = s := congrArg Prod.fst hpair
      have hsnd : readLE32 b 24 = r := congrArg Prod.snd hpair
      constructor
      · rw [← hfst]
        split_ifs
        · exact everyOther_ne_nil _ hsamp
        · exact hsamp
      · omega
    · rw [if_neg hb8] at hdec
      exact absurd hdec (by simp)

/-- Witness for the amended C4: a 46-byte mono 16-bit buffer with sample
rate 16000 and one zero sample decodes to a non-empty sample list and a
positive rate. -/
theorem decode_wav_invariant_conditional_witness :
    [((int16OfBytes 0 0 : Rat) / 32768)] ≠ [] ∧ 0 < 16000 :=
  decode_wav_invariant_conditional wavOneSample [((int16OfBytes 0 0 : Rat) / 32768)] 16000
    (by decide) (by decide) rfl
